import Mathlib

/-!
Verification of the Home Theater State Manager coordinator
(`custom_components/home_theater/coordinator.py` and `const.py`).

The coordinator is shallowly embedded as pure Lean functions over an
explicit state record `Coord`.  Python floats are modelled as exact
rationals (`ℚ`); `round(x, 4)` is modelled as round-half-even to four
decimal places on the exact value.  Each coordinator method becomes a
function `Config → Env → ... → Coord → Res`, where `Env` decides
whether each outbound command dispatch succeeds (the code awaits the
dispatch and an exception propagates before any state mutation of that
step), and `Res` carries the success flag, the state at return (or at
the point the exception propagated), and the observable effect trace
(commands sent, sleeps, listener notifications).  Timers scheduled via
`async_call_later` are modelled as a list of pending timer records in
the state together with the coordinator's stored cancel handle.
-/

namespace HomeTheater

/-- Screen position values (`SCREEN_UP/DOWN/OPENING/CLOSING` in `const.py`). -/
inductive ScreenPos
  | up
  | down
  | opening
  | closing
deriving DecidableEq, Repr

/-- `DEFAULT_VOLUME_MAX_STEPS` from `const.py`. -/
def DEFAULT_VOLUME_MAX_STEPS : Nat := 50

/-- `VOLUME_MIN` from `const.py`. -/
def VOLUME_MIN : ℚ := 0

/-- `VOLUME_MAX` from `const.py`. -/
def VOLUME_MAX : ℚ := 1

/-- `DEFAULT_VOLUME` from `const.py`. -/
def DEFAULT_VOLUME : ℚ := 3 / 10

/-- `DEFAULT_SCREEN_TRAVEL_TIME` from `const.py` (seconds). -/
def DEFAULT_SCREEN_TRAVEL_TIME : ℚ := 15

/-- `VOLUME_STEP_DELAY` from `const.py` (seconds). -/
def VOLUME_STEP_DELAY : ℚ := 15 / 100

/-- `AMP_POWER_ON_DELAY` from `const.py` (seconds). -/
def AMP_POWER_ON_DELAY : ℚ := 1

/-- One light/switch entry of a scene's `lights` list
(`{entity_id, state, brightness?}`); absent dict keys are `none`. -/
structure LightCfg where
  entity_id : Option String
  state : Option String
  brightness : Option ℚ
deriving DecidableEq, Repr

/-- A scene definition from the `scenes` configuration list.  Optional
dict keys are modelled as `Option`; an absent `lights` key behaves like
the empty list, so `lights` is a plain list. -/
structure Scene where
  name : String
  amp_power : Option Bool
  source : Option String
  volume : Option ℚ
  screen : Option String
  lights : List LightCfg
deriving DecidableEq, Repr

/-- The coordinator's configuration dict.  `volume_max_steps` and
`screen_travel_time` stand for `config.get(key, DEFAULT)` (default
already applied); `screen_stop_cmd` is optional. -/
structure Config where
  amp_device_id : String
  amp_power_on_cmd : String
  amp_power_off_cmd : String
  amp_volume_up_cmd : String
  amp_volume_down_cmd : String
  amp_mute_cmd : String
  volume_max_steps : Nat
  hdmi_switch_device_id : String
  sources : List (String × String)
  screen_device_id : String
  screen_down_cmd : String
  screen_up_cmd : String
  screen_stop_cmd : Option String
  screen_travel_time : ℚ
  scenes : List Scene
deriving Repr

/-- The persisted snapshot produced by `_state_to_dict` and consumed by
`async_load` (the six `TheaterState` fields). -/
structure StateRec where
  amp_power : Bool
  volume : ℚ
  muted : Bool
  source : Option String
  screen_position : ScreenPos
  active_scene : Option String
deriving DecidableEq, Repr

/-- A timer scheduled through `async_call_later`: its handle id, the
arrival callback it will run (`_screen_arrived_down` / `_screen_arrived_up`,
identified by the target position), and the scheduled delay. -/
structure Timer where
  id : Nat
  target : ScreenPos
  delay : ℚ
deriving DecidableEq, Repr

/-- The coordinator's mutable state: the six `TheaterState` fields, the
stored screen-timer cancel handle (`_screen_timer`), the event loop's
list of still-scheduled timers, a fresh-id counter for handles, and the
scene re-entrancy guard (`_in_scene_activation`). -/
structure Coord where
  amp_power : Bool
  volume : ℚ
  muted : Bool
  source : Option String
  screen_position : ScreenPos
  active_scene : Option String
  screen_timer : Option Nat
  pending : List Timer
  next_id : Nat
  in_scene_activation : Bool
deriving DecidableEq, Repr

/-- Projection of the six `TheaterState` fields (what listeners observe
and what `_state_to_dict` serializes). -/
def stateRec (s : Coord) : StateRec :=
  ⟨s.amp_power, s.volume, s.muted, s.source, s.screen_position, s.active_scene⟩

/-- Observable effects of a coordinator call: an outbound
`remote_ir_device_manager.send_command` dispatch, a light/switch
service call, an `asyncio.sleep`, or a `_notify` broadcast (carrying
the state listeners observe at that moment). -/
inductive Ev
  | send (device command : String)
  | svc (domain service entity : String) (brightness : Option Int)
  | sleep (seconds : ℚ)
  | notify (st : StateRec)
deriving DecidableEq, Repr

/-- Dispatch environment: whether each IR/RF `send_command` call and
each light/switch service call reports success. -/
structure Env where
  sendOk : String → String → Bool
  svcOk : String → String → String → Bool

/-- Result of a coordinator call: `ok = false` means an exception from a
dispatch propagated; `state` is the coordinator state at return (or at
the point the exception escaped); `events` is the effect trace. -/
structure Res where
  ok : Bool
  state : Coord
  events : List Ev
deriving Repr

/-- Successful return. -/
def okR (s : Coord) (evs : List Ev) : Res := ⟨true, s, evs⟩

/-- Exception propagating out, with the state at that point. -/
def errR (s : Coord) (evs : List Ev) : Res := ⟨false, s, evs⟩

/-- Sequencing of awaited coordinator steps: a propagating exception
skips the continuation. -/
def Res.andThen (r : Res) (f : Coord → Res) : Res :=
  if r.ok then
    let r2 := f r.state
    ⟨r2.ok, r2.state, r.events ++ r2.events⟩
  else r

/-- `_notify` as an observable event (listeners read the current state;
the debounced save snapshots the same fields). -/
def notifyEv (s : Coord) : Ev := .notify (stateRec s)

/-- Python `int()` truncation toward zero on an exact rational. -/
def intTrunc (q : ℚ) : Int := if 0 ≤ q then q.floor else -(-q).floor

/-- Round-half-even to the nearest integer (the rounding Python's
`round` applies to the scaled value): the fractional part decides
between floor and floor + 1, a tie going to the even neighbour. -/
def roundHalfEven (q : ℚ) : Int :=
  let n := q.floor
  let r := q - n
  if 1 / 2 ≤ r then
    if r ≤ 1 / 2 then (if n % 2 = 0 then n else n + 1)
    else n + 1
  else n

/-- Python `round(x, 4)` on the exact value: round-half-even at four
decimal places. -/
def round4 (q : ℚ) : ℚ := roundHalfEven (q * 10000) / 10000

/-- The freshly constructed coordinator state (`__init__`). -/
def initCoord : Coord :=
  ⟨false, DEFAULT_VOLUME, false, none, .up, none, none, [], 0, false⟩

/-- `async_load`: hydrate the six fields from a persisted snapshot when
one exists, normalizing a transitional `opening`/`closing` screen
position to `up`.  The volume is copied verbatim. -/
def async_load (data : Option StateRec) (s : Coord) : Coord :=
  match data with
  | none => s
  | some d =>
      { s with
        amp_power := d.amp_power
        volume := d.volume
        muted := d.muted
        source := d.source
        active_scene := d.active_scene
        screen_position :=
          if d.screen_position = .opening ∨ d.screen_position = .closing then .up
          else d.screen_position }

/-- `_state_to_dict`: the persisted snapshot of the current state. -/
def state_to_dict (s : Coord) : StateRec := stateRec s

/-- `async_amp_power_on`: no-op if already on; else dispatch the
power-on command, set `amp_power`, notify. -/
def amp_power_on (cfg : Config) (env : Env) (s : Coord) : Res :=
  if s.amp_power then okR s []
  else if env.sendOk cfg.amp_device_id cfg.amp_power_on_cmd then
    let s1 := { s with amp_power := true }
    okR s1 [.send cfg.amp_device_id cfg.amp_power_on_cmd, notifyEv s1]
  else errR s [.send cfg.amp_device_id cfg.amp_power_on_cmd]

/-- `async_amp_power_off`: no-op if already off; else dispatch the
power-off command, clear `amp_power` and `active_scene`, notify. -/
def amp_power_off (cfg : Config) (env : Env) (s : Coord) : Res :=
  if !s.amp_power then okR s []
  else if env.sendOk cfg.amp_device_id cfg.amp_power_off_cmd then
    let s1 := { s with amp_power := false, active_scene := none }
    okR s1 [.send cfg.amp_device_id cfg.amp_power_off_cmd, notifyEv s1]
  else errR s [.send cfg.amp_device_id cfg.amp_power_off_cmd]

/-- `async_volume_up`: dispatch the step command, add `1/max_steps`
(rounded to 4 decimals, clamped at `VOLUME_MAX`), clear `active_scene`
unless inside scene activation, notify. -/
def volume_up (cfg : Config) (env : Env) (s : Coord) : Res :=
  if env.sendOk cfg.amp_device_id cfg.amp_volume_up_cmd then
    let step : ℚ := 1 / (cfg.volume_max_steps : ℚ)
    let s1 := { s with volume := min VOLUME_MAX (round4 (s.volume + step)) }
    let s2 := if s1.in_scene_activation then s1 else { s1 with active_scene := none }
    okR s2 [.send cfg.amp_device_id cfg.amp_volume_up_cmd, notifyEv s2]
  else errR s [.send cfg.amp_device_id cfg.amp_volume_up_cmd]

/-- `async_volume_down`: dispatch the step command, subtract
`1/max_steps` (rounded to 4 decimals, clamped at `VOLUME_MIN`), clear
`active_scene` unless inside scene activation, notify. -/
def volume_down (cfg : Config) (env : Env) (s : Coord) : Res :=
  if env.sendOk cfg.amp_device_id cfg.amp_volume_down_cmd then
    let step : ℚ := 1 / (cfg.volume_max_steps : ℚ)
    let s1 := { s with volume := max VOLUME_MIN (round4 (s.volume - step)) }
    let s2 := if s1.in_scene_activation then s1 else { s1 with active_scene := none }
    okR s2 [.send cfg.amp_device_id cfg.amp_volume_down_cmd, notifyEv s2]
  else errR s [.send cfg.amp_device_id cfg.amp_volume_down_cmd]

/-- `async_mute_toggle`: dispatch the mute command, flip `muted`,
notify. -/
def mute_toggle (cfg : Config) (env : Env) (s : Coord) : Res :=
  if env.sendOk cfg.amp_device_id cfg.amp_mute_cmd then
    let s1 := { s with muted := !s.muted }
    okR s1 [.send cfg.amp_device_id cfg.amp_mute_cmd, notifyEv s1]
  else errR s [.send cfg.amp_device_id cfg.amp_mute_cmd]

/-- `async_select_source`: unknown source name is a warned no-op; else
dispatch the mapped command, set `source`, clear `active_scene` unless
inside scene activation, notify. -/
def select_source (cfg : Config) (env : Env) (src : String) (s : Coord) : Res :=
  match cfg.sources.lookup src with
  | none => okR s []
  | some cmd =>
    if env.sendOk cfg.hdmi_switch_device_id cmd then
      let s1 := { s with source := some src }
      let s2 := if s1.in_scene_activation then s1 else { s1 with active_scene := none }
      okR s2 [.send cfg.hdmi_switch_device_id cmd, notifyEv s2]
    else errR s [.send cfg.hdmi_switch_device_id cmd]

/-- `_cancel_screen_timer`: if a handle is stored, cancel that scheduled
timer (removing it from the event loop) and null the handle. -/
def cancel_screen_timer (s : Coord) : Coord :=
  match s.screen_timer with
  | none => s
  | some h =>
      { s with pending := s.pending.filter (fun t => t.id != h), screen_timer := none }

/-- `async_call_later`: schedule a fresh timer and return its handle. -/
def schedule_later (delay : ℚ) (target : ScreenPos) (s : Coord) : Coord × Nat :=
  ({ s with pending := s.pending ++ [⟨s.next_id, target, delay⟩],
            next_id := s.next_id + 1 }, s.next_id)

/-- `async_screen_down`: no-op if already `down`; else cancel any prior
timer, dispatch the down command, set `closing`, notify, schedule the
arrived-down timer for the travel time. -/
def screen_down (cfg : Config) (env : Env) (s : Coord) : Res :=
  if s.screen_position = ScreenPos.down then okR s []
  else
    let s0 := cancel_screen_timer s
    if env.sendOk cfg.screen_device_id cfg.screen_down_cmd then
      let s1 := { s0 with screen_position := ScreenPos.closing }
      let p := schedule_later cfg.screen_travel_time ScreenPos.down s1
      let s3 := { p.1 with screen_timer := some p.2 }
      okR s3 [.send cfg.screen_device_id cfg.screen_down_cmd, notifyEv s1]
    else errR s0 [.send cfg.screen_device_id cfg.screen_down_cmd]

/-- `async_screen_up`: no-op if already `up`; else cancel any prior
timer, dispatch the up command, set `opening`, notify, schedule the
arrived-up timer for the travel time. -/
def screen_up (cfg : Config) (env : Env) (s : Coord) : Res :=
  if s.screen_position = ScreenPos.up then okR s []
  else
    let s0 := cancel_screen_timer s
    if env.sendOk cfg.screen_device_id cfg.screen_up_cmd then
      let s1 := { s0 with screen_position := ScreenPos.opening }
      let p := schedule_later cfg.screen_travel_time ScreenPos.up s1
      let s3 := { p.1 with screen_timer := some p.2 }
      okR s3 [.send cfg.screen_device_id cfg.screen_up_cmd, notifyEv s1]
    else errR s0 [.send cfg.screen_device_id cfg.screen_up_cmd]

/-- `_screen_arrived_down` / `_screen_arrived_up`: a scheduled timer
fires (only possible while still in the event loop's pending list), is
consumed, nulls the stored handle, sets the terminal position, and
notifies. -/
def fire_timer (t : Timer) (s : Coord) : Coord × List Ev :=
  if t ∈ s.pending then
    let s1 := { s with pending := s.pending.filter (fun u => u.id != t.id),
                       screen_timer := none, screen_position := t.target }
    (s1, [notifyEv s1])
  else (s, [])

/-- `async_screen_stop`: no-op when no stop command is configured
(absent or empty string, Python truthiness); else cancel any pending
timer, dispatch the stop command, leave the position as-is, notify. -/
def screen_stop (cfg : Config) (env : Env) (s : Coord) : Res :=
  match cfg.screen_stop_cmd with
  | none => okR s []
  | some cmd =>
    if cmd = "" then okR s []
    else
      let s0 := cancel_screen_timer s
      if env.sendOk cfg.screen_device_id cmd then
        okR s0 [.send cfg.screen_device_id cmd, notifyEv s0]
      else errR s0 [.send cfg.screen_device_id cmd]

/-- `sync_volume`: set the tracked volume to the given level rounded to
4 decimals and clamped to `[VOLUME_MIN, VOLUME_MAX]`, without
dispatching any command; notify. -/
def sync_volume (v : ℚ) (s : Coord) : Coord × List Ev :=
  let s1 := { s with volume := max VOLUME_MIN (min VOLUME_MAX (round4 v)) }
  (s1, [notifyEv s1])

/-- `async_cleanup`: cancel the pending screen timer on unload. -/
def async_cleanup (s : Coord) : Coord := cancel_screen_timer s

/-- The `for _ in range(steps_needed)` loop of `async_volume_set_level`:
each iteration steps the volume in the direction of `diff` and then
sleeps `VOLUME_STEP_DELAY`; a dispatch exception propagates out. -/
def volume_step_loop (cfg : Config) (env : Env) (diff : ℚ) :
    Nat → Coord → Res
  | 0, s => okR s []
  | n + 1, s =>
    let r := if diff > 0 then volume_up cfg env s else volume_down cfg env s
    if r.ok then
      let r2 := volume_step_loop cfg env diff n r.state
      ⟨r2.ok, r2.state, r.events ++ [Ev.sleep VOLUME_STEP_DELAY] ++ r2.events⟩
    else r

/-- `async_volume_set_level`: clamp and round the target, compute
`int(|target - volume| / step)` steps, run the stepping loop, then snap
the tracked volume to the exact target (notifying once more) if it does
not already equal it. -/
def volume_set_level (cfg : Config) (env : Env) (t : ℚ) (s : Coord) : Res :=
  let target := max VOLUME_MIN (min VOLUME_MAX (round4 t))
  let step : ℚ := 1 / (cfg.volume_max_steps : ℚ)
  let diff := target - s.volume
  let steps_needed := (intTrunc (abs diff / step)).toNat
  let r := volume_step_loop cfg env diff steps_needed s
  if r.ok then
    if r.state.volume = target then r
    else
      let s1 := { r.state with volume := target }
      ⟨true, s1, r.events ++ [notifyEv s1]⟩
  else r

/-- The lights/switches step of `_execute_scene`: skip entries without
an entity id or with an unsupported domain; turn on (scaling a 0–100
brightness to 0–255 for lights) or off via a blocking service call. -/
def run_lights (env : Env) : List LightCfg → Coord → Res
  | [], s => okR s []
  | lc :: rest, s =>
    match lc.entity_id with
    | none => run_lights env rest s
    | some eid =>
      if eid = "" then run_lights env rest s
      else
        let domain := (eid.splitOn ".").headD ""
        if domain = "light" ∨ domain = "switch" then
          let st := lc.state.getD "off"
          let r1 : Res :=
            if st = "on" then
              let b : Option Int :=
                if domain = "light" then
                  lc.brightness.map (fun q => intTrunc (q * 255 / 100))
                else none
              if env.svcOk domain "turn_on" eid then okR s [.svc domain "turn_on" eid b]
              else errR s [.svc domain "turn_on" eid b]
            else
              if env.svcOk domain "turn_off" eid then okR s [.svc domain "turn_off" eid none]
              else errR s [.svc domain "turn_off" eid none]
          Res.andThen r1 (run_lights env rest)
        else run_lights env rest s

/-- `_execute_scene`: amp power (with settle delay after power-on),
source selection (if non-empty), volume ramp, screen position, lights,
then set `active_scene` to the scene's name and notify. -/
def execute_scene (cfg : Config) (env : Env) (scene : Scene)
    (scene_name : String) (s : Coord) : Res :=
  let r1 : Res :=
    match scene.amp_power with
    | none => okR s []
    | some true =>
        let r := amp_power_on cfg env s
        if r.ok then ⟨true, r.state, r.events ++ [Ev.sleep AMP_POWER_ON_DELAY]⟩ else r
    | some false => amp_power_off cfg env s
  let r2 := Res.andThen r1 (fun u =>
    match scene.source with
    | some src => if src = "" then okR u [] else select_source cfg env src u
    | none => okR u [])
  let r3 := Res.andThen r2 (fun u =>
    match scene.volume with
    | some v => volume_set_level cfg env v u
    | none => okR u [])
  let r4 := Res.andThen r3 (fun u =>
    if scene.screen = some "down" then screen_down cfg env u
    else if scene.screen = some "up" then screen_up cfg env u
    else okR u [])
  let r5 := Res.andThen r4 (run_lights env scene.lights)
  Res.andThen r5 (fun u =>
    let s1 := { u with active_scene := some scene_name }
    okR s1 [notifyEv s1])

/-- Scene lookup of `async_activate_scene`:
`next((s for s in scenes if s.get("name") == scene_name), None)`. -/
def find_scene (cfg : Config) (name : String) : Option Scene :=
  cfg.scenes.find? (fun sc => sc.name == name)

/-- `async_activate_scene`: unknown scene name is a warned no-op; else
set the re-entrancy guard, execute the scene, and release the guard on
every exit path (`finally`). -/
def activate_scene (cfg : Config) (env : Env) (name : String) (s : Coord) : Res :=
  match find_scene cfg name with
  | none => okR s []
  | some scene =>
      let r := execute_scene cfg env scene name { s with in_scene_activation := true }
      ⟨r.ok, { r.state with in_scene_activation := false }, r.events⟩

/-- Number of dispatches of a given command to a given device in an
effect trace. -/
def sendCount (d c : String) (evs : List Ev) : Nat :=
  evs.countP (fun e => decide (e = Ev.send d c))

/-- Scan of an effect trace checking that at least `d` seconds of sleep
separate every two consecutive command dispatches; `acc` is the sleep
accumulated since the last dispatch (`none` before the first). -/
def gaps_go (d : ℚ) (acc : Option ℚ) : List Ev → Bool
  | [] => true
  | Ev.send _ _ :: rest =>
      (match acc with
       | none => true
       | some a => decide (d ≤ a)) && gaps_go d (some 0) rest
  | Ev.sleep t :: rest => gaps_go d (acc.map (fun a => a + t)) rest
  | Ev.svc _ _ _ _ :: rest => gaps_go d acc rest
  | Ev.notify _ :: rest => gaps_go d acc rest

/-- Every two consecutive dispatches in the trace are separated by at
least `d` seconds of sleep. -/
def gaps_ok (d : ℚ) (evs : List Ev) : Bool := gaps_go d none evs

/-- The `active_scene` values listeners observe, one per `_notify`
broadcast in the trace, in order. -/
def notifyActives (evs : List Ev) : List (Option String) :=
  evs.filterMap (fun e =>
    match e with
    | Ev.notify st => some st.active_scene
    | _ => none)

/-- The screen-timer invariant: the timers still scheduled in the event
loop are exactly the one the coordinator holds a cancel handle for (so
at most one is ever outstanding). -/
def TimerInv (s : Coord) : Prop :=
  s.pending.map Timer.id = s.screen_timer.toList

/-- A scene sub-step, run from state `s`, that completed successfully,
preserved `active_scene` and the re-entrancy guard, and whose every
notification still showed the original `active_scene`. -/
def ScenePres (s : Coord) (r : Res) : Prop :=
  r.ok = true ∧ r.state.active_scene = s.active_scene ∧
  r.state.in_scene_activation = s.in_scene_activation ∧
  ∀ st : StateRec, Ev.notify st ∈ r.events → st.active_scene = s.active_scene

/-- A scene sub-step that completed successfully and preserved the
re-entrancy guard (it may have changed `active_scene`). -/
def OkGuard (s : Coord) (r : Res) : Prop :=
  r.ok = true ∧ r.state.in_scene_activation = s.in_scene_activation

/-- The coordinator's public mutating entry points plus the timer
callback, as a single action type for stating state invariants. -/
inductive Act
  | ampOn
  | ampOff
  | volUp
  | volDown
  | muteT
  | selectSrc (src : String)
  | scrDown
  | scrUp
  | scrStop
  | volSet (t : ℚ)
  | scene (name : String)
  | syncVol (v : ℚ)
  | loadData (d : Option StateRec)
  | cleanup
  | fire (t : Timer)

/-- State reached after performing one action. -/
def apply_act (cfg : Config) (env : Env) : Act → Coord → Coord
  | .ampOn, s => (amp_power_on cfg env s).state
  | .ampOff, s => (amp_power_off cfg env s).state
  | .volUp, s => (volume_up cfg env s).state
  | .volDown, s => (volume_down cfg env s).state
  | .muteT, s => (mute_toggle cfg env s).state
  | .selectSrc src, s => (select_source cfg env src s).state
  | .scrDown, s => (screen_down cfg env s).state
  | .scrUp, s => (screen_up cfg env s).state
  | .scrStop, s => (screen_stop cfg env s).state
  | .volSet t, s => (volume_set_level cfg env t s).state
  | .scene n, s => (activate_scene cfg env n s).state
  | .syncVol v, s => (sync_volume v s).1
  | .loadData d, s => async_load d s
  | .cleanup, s => async_cleanup s
  | .fire t, s => (fire_timer t s).1

/-- Environment in which every dispatch and service call succeeds. -/
def envT : Env := ⟨fun _ _ => true, fun _ _ _ => true⟩

/-- Environment in which every IR/RF dispatch reports failure (service
calls to lights are unaffected). -/
def envF : Env := ⟨fun _ _ => false, fun _ _ _ => true⟩

/-- A scene that only powers the amplifier off. -/
def sceneOff : Scene := ⟨"Off", some false, none, none, none, []⟩

/-- The spec's example scene: amp on, BluRay source, volume 0.4, screen
down. -/
def sceneMovie : Scene := ⟨"Movie Night", some true, some "BluRay", some (2 / 5), some "down", []⟩

/-- A concrete configuration used for witnesses and counterexamples. -/
def cfg0 : Config where
  amp_device_id := "ampdev"
  amp_power_on_cmd := "pon"
  amp_power_off_cmd := "poff"
  amp_volume_up_cmd := "vup"
  amp_volume_down_cmd := "vdn"
  amp_mute_cmd := "mut"
  volume_max_steps := 50
  hdmi_switch_device_id := "hdmidev"
  sources := [("BluRay", "hdmi1"), ("TV", "hdmi2")]
  screen_device_id := "scrdev"
  screen_down_cmd := "sdn"
  screen_up_cmd := "sup"
  screen_stop_cmd := none
  screen_travel_time := 15
  scenes := [sceneOff, sceneMovie]

/-- `cfg0` with a screen stop command configured. -/
def cfgStop : Config := { cfg0 with screen_stop_cmd := some "sst" }

/-- A state with the amp on and a scene marked active. -/
def coordOn : Coord :=
  { initCoord with amp_power := true, active_scene := some "Movie Night" }

/-- A state with the screen fully deployed. -/
def coordDown : Coord := { initCoord with screen_position := .down }

/-- A state mid-travel upward with one arrived-up timer outstanding. -/
def coordOpening : Coord :=
  { initCoord with screen_position := .opening, screen_timer := some 2,
                   pending := [⟨2, .up, 15⟩], next_id := 3 }

/-- A state with the amp already off but a scene still marked active
(e.g. reached by activating a power-off scene). -/
def coordIdle : Coord :=
  { initCoord with active_scene := some "Night" }

/-- A state mid-travel with one arrived-down timer outstanding. -/
def coordClosing : Coord :=
  { initCoord with screen_position := .closing, screen_timer := some 0,
                   pending := [⟨0, .down, 15⟩], next_id := 1 }

/-- A persisted snapshot whose volume lies outside `[0, 1]`. -/
def snapHigh : StateRec := ⟨false, 3 / 2, false, none, .up, none⟩

/-! ### Helper lemmas about the rounding primitive -/

theorem ratFloor_eq (q : ℚ) : q.floor = ⌊q⌋ := by
  rw [Rat.floor_def', Rat.floor_def]

theorem floor_le_roundHalfEven (q : ℚ) : ⌊q⌋ ≤ roundHalfEven q := by
  simp only [roundHalfEven, ratFloor_eq]
  split_ifs <;> omega

theorem roundHalfEven_le_floor_add_one (q : ℚ) : roundHalfEven q ≤ ⌊q⌋ + 1 := by
  simp only [roundHalfEven, ratFloor_eq]
  split_ifs <;> omega

theorem roundHalfEven_mono {a b : ℚ} (h : a ≤ b) :
    roundHalfEven a ≤ roundHalfEven b := by
  have hf : ⌊a⌋ ≤ ⌊b⌋ := Int.floor_le_floor h
  rcases eq_or_lt_of_le hf with heq | hlt
  · simp only [roundHalfEven, ratFloor_eq, ← heq]
    have hrr : a - (⌊a⌋ : ℚ) ≤ b - (⌊a⌋ : ℚ) := by linarith
    by_cases c1 : (1 : ℚ) / 2 ≤ a - (⌊a⌋ : ℚ)
    · have c1b : (1 : ℚ) / 2 ≤ b - (⌊a⌋ : ℚ) := le_trans c1 hrr
      by_cases c2 : a - (⌊a⌋ : ℚ) ≤ 1 / 2
      · simp only [if_pos c1, if_pos c1b, if_pos c2]
        by_cases c3 : b - (⌊a⌋ : ℚ) ≤ 1 / 2
        · simp only [if_pos c3]
          split_ifs <;> omega
        · simp only [if_neg c3]
          split_ifs <;> omega
      · have c2b : ¬ b - (⌊a⌋ : ℚ) ≤ 1 / 2 := fun hc => c2 (le_trans hrr hc)
        simp only [if_pos c1, if_pos c1b, if_neg c2, if_neg c2b]
        omega
    · simp only [if_neg c1]
      have := floor_le_roundHalfEven b
      simp only [roundHalfEven, ratFloor_eq] at this ⊢
      rw [← heq] at this
      split_ifs <;> omega
  · have ha := roundHalfEven_le_floor_add_one a
    have hb := floor_le_roundHalfEven b
    omega

theorem roundHalfEven_intCast (n : Int) : roundHalfEven ((n : ℚ)) = n := by
  simp [roundHalfEven, ratFloor_eq]

theorem round4_int_div (n : Int) :
    round4 ((n : ℚ) / 10000) = (n : ℚ) / 10000 := by
  rw [round4, div_mul_cancel₀]
  · rw [roundHalfEven_intCast]
  · norm_num

theorem round4_zero : round4 0 = 0 := by
  have h := round4_int_div 0
  norm_num at h
  exact h

theorem round4_one : round4 1 = 1 := by
  have h := round4_int_div 10000
  norm_num at h
  exact h

theorem round4_mono {a b : ℚ} (h : a ≤ b) : round4 a ≤ round4 b := by
  rw [round4, round4]
  have : roundHalfEven (a * 10000) ≤ roundHalfEven (b * 10000) :=
    roundHalfEven_mono (by linarith)
  have hc : ((roundHalfEven (a * 10000) : ℚ)) ≤ ((roundHalfEven (b * 10000) : ℚ)) :=
    Int.cast_le.mpr this
  linarith

/-- Clamping then rounding agrees with rounding then clamping on the
volume range (the code rounds first; the spec states the other order). -/
theorem clamp_round4_comm (t : ℚ) :
    max VOLUME_MIN (min VOLUME_MAX (round4 t)) =
      round4 (max VOLUME_MIN (min VOLUME_MAX t)) := by
  simp only [VOLUME_MIN, VOLUME_MAX]
  rcases le_total t 0 with h0 | h0
  · have hr : round4 t ≤ 0 := round4_zero ▸ round4_mono h0
    rw [min_eq_right (le_trans hr zero_le_one), max_eq_left hr,
        min_eq_right (le_trans h0 zero_le_one), max_eq_left h0, round4_zero]
  · rcases le_total 1 t with h1 | h1
    · have hr : 1 ≤ round4 t := round4_one ▸ round4_mono h1
      rw [min_eq_left hr, max_eq_right zero_le_one, min_eq_left h1,
          max_eq_right zero_le_one, round4_one]
    · have hl : 0 ≤ round4 t := round4_zero ▸ round4_mono h0
      have hu : round4 t ≤ 1 := round4_one ▸ round4_mono h1
      rw [min_eq_right hu, max_eq_right hl, min_eq_right h1, max_eq_right h0]

/-! ### C6: persistence round-trip -/

/-- C6: serializing any state to a snapshot and loading that snapshot
back yields identical `amp_power`, `volume`, `muted`, `source` and
`active_scene`; the loaded `screen_position` equals the saved one except
that `opening`/`closing` is normalized to `up`. -/
theorem C6_persistence_roundtrip (s s' : Coord) :
    (async_load (some (state_to_dict s)) s').amp_power = s.amp_power ∧
    (async_load (some (state_to_dict s)) s').volume = s.volume ∧
    (async_load (some (state_to_dict s)) s').muted = s.muted ∧
    (async_load (some (state_to_dict s)) s').source = s.source ∧
    (async_load (some (state_to_dict s)) s').active_scene = s.active_scene ∧
    (async_load (some (state_to_dict s)) s').screen_position =
      (if s.screen_position = .opening ∨ s.screen_position = .closing then .up
       else s.screen_position) := by
  simp [async_load, state_to_dict, stateRec]

/-! ### C8: screenStop without a configured stop command -/

/-- C8: when no screen stop command is configured, `screenStop` is a
no-op: the state (including `screen_position` and any pending screen
timer) is unchanged and no command is dispatched. -/
theorem C8_screen_stop_noop (cfg : Config) (env : Env) (s : Coord)
    (h : cfg.screen_stop_cmd = none) :
    screen_stop cfg env s = okR s [] := by
  simp [screen_stop, h]

theorem C8_screen_stop_noop_witness :
    screen_stop cfg0 envT coordClosing = okR coordClosing [] :=
  C8_screen_stop_noop cfg0 envT coordClosing rfl

/-! ### C2: setVolumeLevel reaches the exact target -/

theorem volume_up_ok (cfg : Config) (env : Env) (s : Coord)
    (hup : env.sendOk cfg.amp_device_id cfg.amp_volume_up_cmd = true) :
    (volume_up cfg env s).ok = true := by
  simp [volume_up, hup, okR]

theorem volume_down_ok (cfg : Config) (env : Env) (s : Coord)
    (hdn : env.sendOk cfg.amp_device_id cfg.amp_volume_down_cmd = true) :
    (volume_down cfg env s).ok = true := by
  simp [volume_down, hdn, okR]

theorem volume_step_loop_ok (cfg : Config) (env : Env) (diff : ℚ)
    (hup : env.sendOk cfg.amp_device_id cfg.amp_volume_up_cmd = true)
    (hdn : env.sendOk cfg.amp_device_id cfg.amp_volume_down_cmd = true) :
    ∀ (n : Nat) (s : Coord), (volume_step_loop cfg env diff n s).ok = true := by
  intro n
  induction n with
  | zero => intro s; rfl
  | succ n ih =>
      intro s
      by_cases hd : diff > 0
      · simp only [volume_step_loop, if_pos hd, volume_up_ok cfg env s hup, if_true]
        exact ih _
      · simp only [volume_step_loop, if_neg hd, volume_down_ok cfg env s hdn, if_true]
        exact ih _

theorem volume_set_level_spec (cfg : Config) (env : Env) (t : ℚ) (s : Coord)
    (hup : env.sendOk cfg.amp_device_id cfg.amp_volume_up_cmd = true)
    (hdn : env.sendOk cfg.amp_device_id cfg.amp_volume_down_cmd = true) :
    (volume_set_level cfg env t s).ok = true ∧
    (volume_set_level cfg env t s).state.volume =
      max VOLUME_MIN (min VOLUME_MAX (round4 t)) := by
  have h := volume_step_loop_ok cfg env
    (max VOLUME_MIN (min VOLUME_MAX (round4 t)) - s.volume) hup hdn
    ((intTrunc ((abs (max VOLUME_MIN (min VOLUME_MAX (round4 t)) - s.volume)) /
      (1 / (cfg.volume_max_steps : ℚ)))).toNat) s
  simp only [volume_set_level, h, if_true]
  by_cases hv :
      (volume_step_loop cfg env
        (max VOLUME_MIN (min VOLUME_MAX (round4 t)) - s.volume)
        ((intTrunc ((abs (max VOLUME_MIN (min VOLUME_MAX (round4 t)) - s.volume)) /
          (1 / (cfg.volume_max_steps : ℚ)))).toNat) s).state.volume =
      max VOLUME_MIN (min VOLUME_MAX (round4 t))
  · simp only [if_pos hv]
    exact ⟨h, hv⟩
  · simp only [if_neg hv]
    exact ⟨trivial, trivial⟩

/-- C2: for every target and every starting state, `setVolumeLevel`
terminates (it is a total function: the step loop is a structural
recursion) with the tracked volume exactly
`round(clamp(target, 0, 1), 4)`, for any configured step granularity:
the final snap removes all residual drift. -/
theorem C2_set_volume_level_exact (cfg : Config) (env : Env) (t : ℚ) (s : Coord)
    (_hms : 0 < cfg.volume_max_steps)
    (hup : env.sendOk cfg.amp_device_id cfg.amp_volume_up_cmd = true)
    (hdn : env.sendOk cfg.amp_device_id cfg.amp_volume_down_cmd = true) :
    (volume_set_level cfg env t s).ok = true ∧
    (volume_set_level cfg env t s).state.volume =
      round4 (max VOLUME_MIN (min VOLUME_MAX t)) := by
  obtain ⟨h1, h2⟩ := volume_set_level_spec cfg env t s hup hdn
  exact ⟨h1, h2.trans (clamp_round4_comm t)⟩

theorem C2_set_volume_level_exact_witness :
    (volume_set_level cfg0 envT (7 / 10) initCoord).ok = true ∧
    (volume_set_level cfg0 envT (7 / 10) initCoord).state.volume =
      round4 (max VOLUME_MIN (min VOLUME_MAX (7 / 10))) :=
  C2_set_volume_level_exact cfg0 envT (7 / 10) initCoord (by norm_num [cfg0]) rfl rfl

/-! ### C3: operations outside scene execution clear the active scene -/

/-- C3 (amended): `volumeUp`, `volumeDown` and `selectSource` with a
known source name, invoked outside scene execution with a successful
dispatch, always leave `active_scene` absent; `powerOff` clears
`active_scene` when the amp is on, but when the amp is already off it is
a complete no-op and leaves a previously set `active_scene` in place. -/
theorem C3_clear_active_scene (cfg : Config) (env : Env) (s : Coord) :
    (s.amp_power = true →
      env.sendOk cfg.amp_device_id cfg.amp_power_off_cmd = true →
      (amp_power_off cfg env s).state.active_scene = none) ∧
    (s.amp_power = false → amp_power_off cfg env s = okR s []) ∧
    (s.in_scene_activation = false →
      env.sendOk cfg.amp_device_id cfg.amp_volume_up_cmd = true →
      (volume_up cfg env s).state.active_scene = none) ∧
    (s.in_scene_activation = false →
      env.sendOk cfg.amp_device_id cfg.amp_volume_down_cmd = true →
      (volume_down cfg env s).state.active_scene = none) ∧
    (∀ src cmd, cfg.sources.lookup src = some cmd →
      s.in_scene_activation = false →
      env.sendOk cfg.hdmi_switch_device_id cmd = true →
      (select_source cfg env src s).state.active_scene = none) := by
  refine ⟨?_, ?_, ?_, ?_, ?_⟩
  · intro hp hok
    simp [amp_power_off, hp, hok, okR]
  · intro hp
    simp [amp_power_off, hp, okR]
  · intro hg hok
    simp [volume_up, hg, hok, okR]
  · intro hg hok
    simp [volume_down, hg, hok, okR]
  · intro src cmd hl hg hok
    simp [select_source, hl, hg, hok, okR]

/-- C3 counterexample: with the amp already off and `active_scene` still
set (a state reachable by activating a power-off scene), `powerOff`
returns without clearing `active_scene`, so the claim's "for every
state" fails. -/
theorem C3_power_off_noop_counterexample :
    coordIdle.active_scene = some "Night" ∧
    amp_power_off cfg0 envT coordIdle = okR coordIdle [] ∧
    (amp_power_off cfg0 envT coordIdle).state.active_scene = some "Night" := by
  refine ⟨rfl, ?_, ?_⟩ <;> simp [amp_power_off, coordIdle, initCoord, okR]

theorem C3_clear_active_scene_witness :
    (amp_power_off cfg0 envT coordOn).state.active_scene = none ∧
    (volume_up cfg0 envT coordOn).state.active_scene = none ∧
    (volume_down cfg0 envT coordOn).state.active_scene = none ∧
    (select_source cfg0 envT "TV" coordOn).state.active_scene = none := by
  obtain ⟨h1, _, h3, h4, h5⟩ := C3_clear_active_scene cfg0 envT coordOn
  exact ⟨h1 rfl rfl, h3 rfl rfl, h4 rfl rfl, h5 "TV" "hdmi2" rfl rfl rfl⟩

/-! ### C4: dispatch failure aborts the step's state mutation -/

theorem stateRec_cancel_screen_timer (s : Coord) :
    stateRec (cancel_screen_timer s) = stateRec s := by
  unfold cancel_screen_timer
  cases s.screen_timer <;> simp [stateRec]

/-- C4: for every step that dispatches a command (amp power on/off,
volume up/down, mute, source selection, screen down/up/stop), if the
dispatch reports failure the exception propagates with the
`TheaterState` fields (`amp_power`, `volume`, `muted`, `source`,
`screen_position`, `active_scene`) exactly as before the call: the
optimistic state update of that step does not happen. -/
theorem C4_dispatch_failure_no_mutation (cfg : Config) (s : Coord) :
    (s.amp_power = false →
      (amp_power_on cfg envF s).ok = false ∧
      stateRec (amp_power_on cfg envF s).state = stateRec s) ∧
    (s.amp_power = true →
      (amp_power_off cfg envF s).ok = false ∧
      stateRec (amp_power_off cfg envF s).state = stateRec s) ∧
    ((volume_up cfg envF s).ok = false ∧
      stateRec (volume_up cfg envF s).state = stateRec s) ∧
    ((volume_down cfg envF s).ok = false ∧
      stateRec (volume_down cfg envF s).state = stateRec s) ∧
    ((mute_toggle cfg envF s).ok = false ∧
      stateRec (mute_toggle cfg envF s).state = stateRec s) ∧
    (∀ src cmd, cfg.sources.lookup src = some cmd →
      (select_source cfg envF src s).ok = false ∧
      stateRec (select_source cfg envF src s).state = stateRec s) ∧
    (s.screen_position ≠ .down →
      (screen_down cfg envF s).ok = false ∧
      stateRec (screen_down cfg envF s).state = stateRec s) ∧
    (s.screen_position ≠ .up →
      (screen_up cfg envF s).ok = false ∧
      stateRec (screen_up cfg envF s).state = stateRec s) ∧
    (∀ c, cfg.screen_stop_cmd = some c → c ≠ "" →
      (screen_stop cfg envF s).ok = false ∧
      stateRec (screen_stop cfg envF s).state = stateRec s) := by
  refine ⟨?_, ?_, ?_, ?_, ?_, ?_, ?_, ?_, ?_⟩
  · intro hp
    simp [amp_power_on, hp, envF, errR]
  · intro hp
    simp [amp_power_off, hp, envF, errR]
  · simp [volume_up, envF, errR]
  · simp [volume_down, envF, errR]
  · simp [mute_toggle, envF, errR]
  · intro src cmd hl
    simp [select_source, hl, envF, errR]
  · intro hp
    simp [screen_down, hp, envF, errR, stateRec_cancel_screen_timer]
  · intro hp
    simp [screen_up, hp, envF, errR, stateRec_cancel_screen_timer]
  · intro c hc hne
    simp [screen_stop, hc, hne, envF, errR, stateRec_cancel_screen_timer]

theorem C4_dispatch_failure_no_mutation_witness :
    (stateRec (amp_power_on cfg0 envF initCoord).state = stateRec initCoord) ∧
    (stateRec (amp_power_off cfg0 envF coordOn).state = stateRec coordOn) ∧
    (stateRec (volume_up cfg0 envF initCoord).state = stateRec initCoord) ∧
    (stateRec (volume_down cfg0 envF initCoord).state = stateRec initCoord) ∧
    (stateRec (mute_toggle cfg0 envF initCoord).state = stateRec initCoord) ∧
    (stateRec (select_source cfg0 envF "TV" initCoord).state = stateRec initCoord) ∧
    (stateRec (screen_down cfg0 envF initCoord).state = stateRec initCoord) ∧
    (stateRec (screen_up cfg0 envF coordClosing).state = stateRec coordClosing) ∧
    (stateRec (screen_stop cfgStop envF coordClosing).state = stateRec coordClosing) := by
  obtain ⟨a1, _, a3, a4, a5, a6, a7, _, _⟩ :=
    C4_dispatch_failure_no_mutation cfg0 initCoord
  obtain ⟨_, b2, _, _, _, _, _, _, _⟩ :=
    C4_dispatch_failure_no_mutation cfg0 coordOn
  obtain ⟨_, _, _, _, _, _, _, c8, c9⟩ :=
    C4_dispatch_failure_no_mutation cfgStop coordClosing
  refine ⟨(a1 rfl).2, (b2 rfl).2, a3.2, a4.2, a5.2, (a6 "TV" "hdmi2" rfl).2,
    (a7 (by decide)).2, (c8 (by decide)).2, (c9 "sst" rfl (by decide)).2⟩

/-! ### C9: a screen move while already in flight is not a no-op -/

theorem cancel_screen_timer_inv (s : Coord) (hi : TimerInv s) :
    (cancel_screen_timer s).pending = [] ∧
    (cancel_screen_timer s).screen_timer = none ∧
    (cancel_screen_timer s).next_id = s.next_id ∧
    (cancel_screen_timer s).screen_position = s.screen_position := by
  unfold TimerInv at hi
  unfold cancel_screen_timer
  cases hh : s.screen_timer with
  | none =>
      rw [hh] at hi
      simp only [Option.toList_none] at hi
      exact ⟨List.map_eq_nil_iff.mp hi, hh, rfl, rfl⟩
  | some h =>
      rw [hh] at hi
      simp only [Option.toList_some] at hi
      cases hp : s.pending with
      | nil => rw [hp] at hi; simp at hi
      | cons t rest =>
          cases rest with
          | nil =>
              rw [hp] at hi
              simp only [List.map_cons, List.map_nil, List.cons.injEq, and_true] at hi
              simp [hp, hi]
          | cons u rest2 => rw [hp] at hi; simp at hi

/-- C9: `screenDown` while the screen is `closing` (a move already in
flight) is not a no-op: it cancels the pending timer, dispatches the
down command again, sets `closing` again, and schedules a fresh
full-travel-time timer — symmetrically for `screenUp` while `opening` —
while only `down` (resp. `up`) short-circuits. -/
theorem C9_screen_move_not_noop (cfg : Config) (env : Env) (s : Coord) :
    (s.screen_position = .closing → TimerInv s →
      env.sendOk cfg.screen_device_id cfg.screen_down_cmd = true →
      (screen_down cfg env s).ok = true ∧
      Ev.send cfg.screen_device_id cfg.screen_down_cmd ∈ (screen_down cfg env s).events ∧
      (screen_down cfg env s).state.screen_position = .closing ∧
      (screen_down cfg env s).state.pending =
        [⟨s.next_id, .down, cfg.screen_travel_time⟩] ∧
      (screen_down cfg env s).state.screen_timer = some s.next_id) ∧
    (s.screen_position = .opening → TimerInv s →
      env.sendOk cfg.screen_device_id cfg.screen_up_cmd = true →
      (screen_up cfg env s).ok = true ∧
      Ev.send cfg.screen_device_id cfg.screen_up_cmd ∈ (screen_up cfg env s).events ∧
      (screen_up cfg env s).state.screen_position = .opening ∧
      (screen_up cfg env s).state.pending =
        [⟨s.next_id, .up, cfg.screen_travel_time⟩] ∧
      (screen_up cfg env s).state.screen_timer = some s.next_id) ∧
    (s.screen_position = .down → screen_down cfg env s = okR s []) ∧
    (s.screen_position = .up → screen_up cfg env s = okR s []) := by
  refine ⟨?_, ?_, ?_, ?_⟩
  · intro hpos hi hok
    obtain ⟨hc1, hc2, hc3, _⟩ := cancel_screen_timer_inv s hi
    have hned : ¬ s.screen_position = ScreenPos.down := by simp [hpos]
    simp only [screen_down, if_neg hned, hok, if_true, schedule_later, okR]
    refine ⟨?_, ?_, ?_, ?_, ?_⟩ <;> simp [hc1, hc3]
  · intro hpos hi hok
    obtain ⟨hc1, hc2, hc3, _⟩ := cancel_screen_timer_inv s hi
    have hned : ¬ s.screen_position = ScreenPos.up := by simp [hpos]
    simp only [screen_up, if_neg hned, hok, if_true, schedule_later, okR]
    refine ⟨?_, ?_, ?_, ?_, ?_⟩ <;> simp [hc1, hc3]
  · intro hpos
    simp [screen_down, hpos, okR]
  · intro hpos
    simp [screen_up, hpos, okR]

theorem C9_screen_move_not_noop_witness :
    (screen_down cfg0 envT coordClosing).state.pending = [⟨1, .down, 15⟩] ∧
    (screen_up cfg0 envT coordOpening).state.pending = [⟨3, .up, 15⟩] ∧
    screen_down cfg0 envT coordDown = okR coordDown [] ∧
    screen_up cfg0 envT initCoord = okR initCoord [] := by
  refine ⟨?_, ?_, ?_, ?_⟩
  · exact ((C9_screen_move_not_noop cfg0 envT coordClosing).1 rfl rfl rfl).2.2.2.1
  · exact ((C9_screen_move_not_noop cfg0 envT coordOpening).2.1 rfl rfl rfl).2.2.2.1
  · exact (C9_screen_move_not_noop cfg0 envT coordDown).2.2.1 rfl
  · exact (C9_screen_move_not_noop cfg0 envT initCoord).2.2.2 rfl

/-! ### C10: load copies the persisted volume verbatim -/

/-- C10 (amended): `load` copies the persisted volume into the state
verbatim, with no clamping and no rounding, so a persisted snapshot with
volume outside `[0, 1]` violates the volume range invariant after load.
The invariant is re-established by a clamping volume operation such as
`syncVolume` (or the end of `setVolumeLevel`); a single
`volumeUp`/`volumeDown` step clamps only at the bound it moves toward
and need not restore the range. -/
theorem C10_load_volume_verbatim (d : StateRec) (s : Coord) :
    ((async_load (some d) s).volume = d.volume) ∧
    ((async_load (some snapHigh) initCoord).volume = 3 / 2 ∧
      ¬ (async_load (some snapHigh) initCoord).volume ≤ VOLUME_MAX) ∧
    (∀ v : ℚ, VOLUME_MIN ≤ (sync_volume v s).1.volume ∧
      (sync_volume v s).1.volume ≤ VOLUME_MAX) := by
  refine ⟨rfl, ⟨rfl, ?_⟩, ?_⟩
  · simp only [async_load, snapHigh, VOLUME_MAX]
    norm_num
  · intro v
    constructor
    · exact le_max_left _ _
    · exact max_le (by norm_num [VOLUME_MIN, VOLUME_MAX]) (min_le_left _ _)

/-- C10 counterexample: after loading a snapshot with volume `1.5`, the
next volume operation can be `volumeDown`, which clamps only at the
lower bound: the volume becomes `1.48`, still outside `[0, 1]`, so the
next volume operation does not necessarily re-establish the range
invariant. -/
theorem C10_next_volume_op_counterexample :
    (async_load (some snapHigh) initCoord).volume = 3 / 2 ∧
    (volume_down cfg0 envT (async_load (some snapHigh) initCoord)).state.volume = 37 / 25 ∧
    ¬ (volume_down cfg0 envT (async_load (some snapHigh) initCoord)).state.volume ≤
      VOLUME_MAX := by
  have hload : (async_load (some snapHigh) initCoord).volume = 3 / 2 := rfl
  have hr : round4 ((async_load (some snapHigh) initCoord).volume -
      1 / ((cfg0.volume_max_steps : Nat) : ℚ)) = 37 / 25 := by
    rw [hload]
    have harg : (3 / 2 : ℚ) - 1 / ((cfg0.volume_max_steps : Nat) : ℚ) =
        ((14800 : Int) : ℚ) / 10000 := by
      norm_num [cfg0]
    rw [harg, round4_int_div]
    norm_num
  have hvol : (volume_down cfg0 envT (async_load (some snapHigh) initCoord)).state.volume =
      37 / 25 := by
    simp only [volume_down, envT, if_true, okR]
    simp only [hr]
    have : max VOLUME_MIN (37 / 25 : ℚ) = 37 / 25 := by
      norm_num [VOLUME_MIN]
    simp [this, async_load, snapHigh, initCoord]
  refine ⟨hload, hvol, ?_⟩
  rw [hvol]
  norm_num [VOLUME_MAX]

/-! ### C5: at most one screen timer is ever outstanding -/

theorem TimerInv_amp_power_on (cfg : Config) (env : Env) (s : Coord)
    (hi : TimerInv s) : TimerInv (amp_power_on cfg env s).state := by
  unfold TimerInv at *
  unfold amp_power_on
  split_ifs <;> simp [okR, errR, hi]

theorem TimerInv_amp_power_off (cfg : Config) (env : Env) (s : Coord)
    (hi : TimerInv s) : TimerInv (amp_power_off cfg env s).state := by
  unfold TimerInv at *
  unfold amp_power_off
  split_ifs <;> simp [okR, errR, hi]

theorem TimerInv_volume_up (cfg : Config) (env : Env) (s : Coord)
    (hi : TimerInv s) : TimerInv (volume_up cfg env s).state := by
  unfold TimerInv at *
  unfold volume_up
  split_ifs <;> simp [okR, errR, hi] <;> split_ifs <;> simp [hi]

theorem TimerInv_volume_down (cfg : Config) (env : Env) (s : Coord)
    (hi : TimerInv s) : TimerInv (volume_down cfg env s).state := by
  unfold TimerInv at *
  unfold volume_down
  split_ifs <;> simp [okR, errR, hi] <;> split_ifs <;> simp [hi]

theorem TimerInv_mute_toggle (cfg : Config) (env : Env) (s : Coord)
    (hi : TimerInv s) : TimerInv (mute_toggle cfg env s).state := by
  unfold TimerInv at *
  unfold mute_toggle
  split_ifs <;> simp [okR, errR, hi]

theorem TimerInv_select_source (cfg : Config) (env : Env) (src : String) (s : Coord)
    (hi : TimerInv s) : TimerInv (select_source cfg env src s).state := by
  unfold TimerInv at *
  cases hl : cfg.sources.lookup src with
  | none => simp [select_source, hl, okR, hi]
  | some cmd =>
      simp only [select_source, hl]
      split_ifs <;> simp [okR, errR, hi] <;> split_ifs <;> simp [hi]

theorem TimerInv_cancel (s : Coord) (hi : TimerInv s) :
    TimerInv (cancel_screen_timer s) := by
  obtain ⟨h1, h2, _, _⟩ := cancel_screen_timer_inv s hi
  unfold TimerInv
  rw [h1, h2]
  rfl

theorem TimerInv_screen_down (cfg : Config) (env : Env) (s : Coord)
    (hi : TimerInv s) : TimerInv (screen_down cfg env s).state := by
  by_cases hpos : s.screen_position = ScreenPos.down
  · simp [screen_down, hpos, okR, hi]
  · obtain ⟨h1, h2, _, _⟩ := cancel_screen_timer_inv s hi
    by_cases hok : env.sendOk cfg.screen_device_id cfg.screen_down_cmd = true
    · simp [screen_down, hpos, hok, schedule_later, okR, TimerInv, h1]
    · simp only [screen_down, if_neg hpos, errR]
      rw [if_neg (by simpa using hok)]
      exact TimerInv_cancel s hi

theorem TimerInv_screen_up (cfg : Config) (env : Env) (s : Coord)
    (hi : TimerInv s) : TimerInv (screen_up cfg env s).state := by
  by_cases hpos : s.screen_position = ScreenPos.up
  · simp [screen_up, hpos, okR, hi]
  · obtain ⟨h1, h2, _, _⟩ := cancel_screen_timer_inv s hi
    by_cases hok : env.sendOk cfg.screen_device_id cfg.screen_up_cmd = true
    · simp [screen_up, hpos, hok, schedule_later, okR, TimerInv, h1]
    · simp only [screen_up, if_neg hpos, errR]
      rw [if_neg (by simpa using hok)]
      exact TimerInv_cancel s hi

theorem TimerInv_screen_stop (cfg : Config) (env : Env) (s : Coord)
    (hi : TimerInv s) : TimerInv (screen_stop cfg env s).state := by
  unfold screen_stop
  cases cfg.screen_stop_cmd with
  | none => exact hi
  | some c =>
      by_cases hc : c = ""
      · simp [hc, okR, hi]
      · have := TimerInv_cancel s hi
        simp only [if_neg hc]
        split_ifs <;> simpa [okR, errR]

theorem pending_eq_singleton (t : Timer) (s : Coord)
    (hi : TimerInv s) (hm : t ∈ s.pending) : s.pending = [t] := by
  unfold TimerInv at hi
  cases hh : s.screen_timer with
  | none =>
      rw [hh] at hi
      simp only [Option.toList_none] at hi
      rw [List.map_eq_nil_iff.mp hi] at hm
      simp at hm
  | some h =>
      rw [hh] at hi
      simp only [Option.toList_some] at hi
      cases hp : s.pending with
      | nil => rw [hp] at hm; simp at hm
      | cons t0 rest =>
          cases rest with
          | nil =>
              rw [hp] at hm
              simp only [List.mem_singleton] at hm
              rw [hm]
          | cons u rest2 => rw [hp] at hi; simp at hi

theorem TimerInv_fire_timer (t : Timer) (s : Coord)
    (hi : TimerInv s) : TimerInv (fire_timer t s).1 := by
  unfold fire_timer
  by_cases hm : t ∈ s.pending
  · have hsp := pending_eq_singleton t s hi hm
    rw [if_pos hm]
    unfold TimerInv
    simp [hsp]
  · rw [if_neg hm]
    exact hi

theorem TimerInv_volume_step_loop (cfg : Config) (env : Env) (diff : ℚ) :
    ∀ (n : Nat) (s : Coord), TimerInv s →
      TimerInv (volume_step_loop cfg env diff n s).state := by
  intro n
  induction n with
  | zero => intro s hi; exact hi
  | succ n ih =>
      intro s hi
      simp only [volume_step_loop]
      by_cases hd : diff > 0
      · simp only [if_pos hd]
        by_cases hok : (volume_up cfg env s).ok = true
        · rw [if_pos hok]
          exact ih _ (TimerInv_volume_up cfg env s hi)
        · rw [if_neg hok]
          exact TimerInv_volume_up cfg env s hi
      · simp only [if_neg hd]
        by_cases hok : (volume_down cfg env s).ok = true
        · rw [if_pos hok]
          exact ih _ (TimerInv_volume_down cfg env s hi)
        · rw [if_neg hok]
          exact TimerInv_volume_down cfg env s hi

theorem TimerInv_volume_set_level (cfg : Config) (env : Env) (t : ℚ) (s : Coord)
    (hi : TimerInv s) : TimerInv (volume_set_level cfg env t s).state := by
  have hl := TimerInv_volume_step_loop cfg env
    (max VOLUME_MIN (min VOLUME_MAX (round4 t)) - s.volume)
    ((intTrunc ((abs (max VOLUME_MIN (min VOLUME_MAX (round4 t)) - s.volume)) /
      (1 / (cfg.volume_max_steps : ℚ)))).toNat) s hi
  simp only [volume_set_level]
  split_ifs
  · exact hl
  · unfold TimerInv at hl ⊢
    simpa using hl
  · exact hl

theorem run_lights_state (env : Env) :
    ∀ (l : List LightCfg) (s : Coord), (run_lights env l s).state = s := by
  intro l
  induction l with
  | nil => intro s; rfl
  | cons lc rest ih =>
      intro s
      simp only [run_lights]
      cases hE : lc.entity_id with
      | none => exact ih s
      | some eid =>
          split_ifs <;> simp [Res.andThen, okR, errR, ih] <;> split_ifs <;>
            simp [okR, errR, ih]

theorem Res.andThen_inv (r : Res) (f : Coord → Res)
    (hr : TimerInv r.state) (hf : ∀ u, TimerInv u → TimerInv (f u).state) :
    TimerInv (Res.andThen r f).state := by
  unfold Res.andThen
  by_cases hok : r.ok = true
  · rw [if_pos hok]
    exact hf r.state hr
  · rw [if_neg hok]
    exact hr

theorem TimerInv_execute_scene (cfg : Config) (env : Env) (scene : Scene)
    (name : String) (s : Coord) (hi : TimerInv s) :
    TimerInv (execute_scene cfg env scene name s).state := by
  simp only [execute_scene]
  apply Res.andThen_inv
  · apply Res.andThen_inv
    · apply Res.andThen_inv
      · apply Res.andThen_inv
        · apply Res.andThen_inv
          · -- amp power step
            cases scene.amp_power with
            | none => exact hi
            | some b =>
                cases b with
                | true =>
                    by_cases hok : (amp_power_on cfg env s).ok = true
                    · rw [if_pos hok]
                      exact TimerInv_amp_power_on cfg env s hi
                    · rw [if_neg hok]
                      exact TimerInv_amp_power_on cfg env s hi
                | false => exact TimerInv_amp_power_off cfg env s hi
          · -- source step
            intro u hu
            cases scene.source with
            | none => exact hu
            | some src =>
                by_cases hsrc : src = ""
                · simp only [if_pos hsrc]
                  exact hu
                · simp only [if_neg hsrc]
                  exact TimerInv_select_source cfg env src u hu
        · -- volume step
          intro u hu
          cases scene.volume with
          | none => exact hu
          | some v => exact TimerInv_volume_set_level cfg env v u hu
      · -- screen step
        intro u hu
        by_cases hd : scene.screen = some "down"
        · simp only [if_pos hd]
          exact TimerInv_screen_down cfg env u hu
        · by_cases hup : scene.screen = some "up"
          · simp only [if_neg hd, if_pos hup]
            exact TimerInv_screen_up cfg env u hu
          · simp only [if_neg hd, if_neg hup]
            exact hu
    · -- lights step
      intro u hu
      rw [run_lights_state env scene.lights u]
      exact hu
  · -- final active-scene assignment
    intro u hu
    unfold TimerInv at hu ⊢
    simpa [okR] using hu

theorem TimerInv_activate_scene (cfg : Config) (env : Env) (name : String)
    (s : Coord) (hi : TimerInv s) :
    TimerInv (activate_scene cfg env name s).state := by
  unfold activate_scene
  cases find_scene cfg name with
  | none => exact hi
  | some scene =>
      have h := TimerInv_execute_scene cfg env scene name
        { s with in_scene_activation := true } (by simpa [TimerInv] using hi)
      unfold TimerInv at h ⊢
      simpa using h

theorem screen_down_fields (cfg : Config) (env : Env) (s : Coord)
    (hpos : ¬ s.screen_position = ScreenPos.down) (hi : TimerInv s)
    (hok : env.sendOk cfg.screen_device_id cfg.screen_down_cmd = true) :
    (screen_down cfg env s).state.screen_position = .closing ∧
    (screen_down cfg env s).state.pending =
      [⟨s.next_id, .down, cfg.screen_travel_time⟩] ∧
    (screen_down cfg env s).state.screen_timer = some s.next_id ∧
    (screen_down cfg env s).state.next_id = s.next_id + 1 := by
  obtain ⟨hc1, _, hc3, _⟩ := cancel_screen_timer_inv s hi
  simp only [screen_down, if_neg hpos, hok, if_true, schedule_later, okR]
  refine ⟨?_, ?_, ?_, ?_⟩ <;> simp [hc1, hc3]

theorem screen_up_fields (cfg : Config) (env : Env) (s : Coord)
    (hpos : ¬ s.screen_position = ScreenPos.up) (hi : TimerInv s)
    (hok : env.sendOk cfg.screen_device_id cfg.screen_up_cmd = true) :
    (screen_up cfg env s).state.screen_position = .opening ∧
    (screen_up cfg env s).state.pending =
      [⟨s.next_id, .up, cfg.screen_travel_time⟩] ∧
    (screen_up cfg env s).state.screen_timer = some s.next_id ∧
    (screen_up cfg env s).state.next_id = s.next_id + 1 := by
  obtain ⟨hc1, _, hc3, _⟩ := cancel_screen_timer_inv s hi
  simp only [screen_up, if_neg hpos, hok, if_true, schedule_later, okR]
  refine ⟨?_, ?_, ?_, ?_⟩ <;> simp [hc1, hc3]

/-- C5: the screen-timer invariant — the pending timers of the event
loop are exactly the one whose handle the coordinator stores, so at most
one is outstanding — holds initially and is preserved by every
operation (each screen move cancels the prior timer before scheduling
its own); and after `screenDown()` immediately followed by `screenUp()`
the superseded arrived-down timer is gone: every still-pending timer
targets `up`, so no timer firing can set the position to `down`. -/
theorem C5_single_outstanding_timer :
    TimerInv initCoord ∧
    (∀ (cfg : Config) (env : Env) (a : Act) (s : Coord),
      TimerInv s → TimerInv (apply_act cfg env a s)) ∧
    (∀ s : Coord, TimerInv s → s.pending.length ≤ 1) ∧
    (∀ (cfg : Config) (env : Env) (s : Coord),
      TimerInv s → ¬ s.screen_position = ScreenPos.down →
      env.sendOk cfg.screen_device_id cfg.screen_down_cmd = true →
      env.sendOk cfg.screen_device_id cfg.screen_up_cmd = true →
      (∀ t ∈ (screen_up cfg env (screen_down cfg env s).state).state.pending,
        t.target = ScreenPos.up) ∧
      (∀ t ∈ (screen_up cfg env (screen_down cfg env s).state).state.pending,
        (fire_timer t
          (screen_up cfg env (screen_down cfg env s).state).state).1.screen_position =
          ScreenPos.up)) := by
  refine ⟨rfl, ?_, ?_, ?_⟩
  · intro cfg env a s hi
    cases a with
    | ampOn => exact TimerInv_amp_power_on cfg env s hi
    | ampOff => exact TimerInv_amp_power_off cfg env s hi
    | volUp => exact TimerInv_volume_up cfg env s hi
    | volDown => exact TimerInv_volume_down cfg env s hi
    | muteT => exact TimerInv_mute_toggle cfg env s hi
    | selectSrc src => exact TimerInv_select_source cfg env src s hi
    | scrDown => exact TimerInv_screen_down cfg env s hi
    | scrUp => exact TimerInv_screen_up cfg env s hi
    | scrStop => exact TimerInv_screen_stop cfg env s hi
    | volSet t => exact TimerInv_volume_set_level cfg env t s hi
    | scene n => exact TimerInv_activate_scene cfg env n s hi
    | syncVol v =>
        unfold TimerInv at hi ⊢
        simpa [apply_act, sync_volume] using hi
    | loadData d =>
        cases d with
        | none => exact hi
        | some d =>
            unfold TimerInv at hi ⊢
            simpa [apply_act, async_load] using hi
    | cleanup => exact TimerInv_cancel s hi
    | fire t => exact TimerInv_fire_timer t s hi
  · intro s hi
    unfold TimerInv at hi
    have hlen := congrArg List.length hi
    rw [List.length_map] at hlen
    rw [hlen]
    cases s.screen_timer <;> simp
  · intro cfg env s hi hpos hok1 hok2
    obtain ⟨hd1, hd2, hd3, hd4⟩ := screen_down_fields cfg env s hpos hi hok1
    have hi3 : TimerInv (screen_down cfg env s).state :=
      TimerInv_screen_down cfg env s hi
    have hpos3 : ¬ (screen_down cfg env s).state.screen_position = ScreenPos.up := by
      simp [hd1]
    obtain ⟨hu1, hu2, hu3, hu4⟩ := screen_up_fields cfg env
      (screen_down cfg env s).state hpos3 hi3 hok2
    have htgt : ∀ t ∈ (screen_up cfg env (screen_down cfg env s).state).state.pending,
        t.target = ScreenPos.up := by
      intro t ht
      rw [hu2] at ht
      simp only [List.mem_singleton] at ht
      rw [ht]
    refine ⟨htgt, ?_⟩
    intro t ht
    unfold fire_timer
    rw [if_pos ht]
    exact htgt t ht

theorem C5_single_outstanding_timer_witness :
    TimerInv (apply_act cfg0 envT Act.scrDown coordClosing) ∧
    coordClosing.pending.length ≤ 1 ∧
    (∀ t ∈ (screen_up cfg0 envT (screen_down cfg0 envT initCoord).state).state.pending,
      t.target = ScreenPos.up) := by
  obtain ⟨_, h2, h3, h4⟩ := C5_single_outstanding_timer
  exact ⟨h2 cfg0 envT Act.scrDown coordClosing rfl, h3 coordClosing rfl,
    (h4 cfg0 envT initCoord rfl (by decide) rfl rfl).1⟩

/-! ### C7: the spec's worked volume-ramp example -/

theorem volume_step_loop_up (cfg : Config) (env : Env) (diff : ℚ) (hd : diff > 0)
    (hup : env.sendOk cfg.amp_device_id cfg.amp_volume_up_cmd = true) :
    ∀ (n : Nat) (s : Coord),
      (volume_step_loop cfg env diff n s).ok = true ∧
      sendCount cfg.amp_device_id cfg.amp_volume_up_cmd
        (volume_step_loop cfg env diff n s).events = n := by
  intro n
  induction n with
  | zero => intro s; exact ⟨rfl, rfl⟩
  | succ n ih =>
      intro s
      have ihc : ∀ u : Coord,
          List.countP (fun e => decide (e = Ev.send cfg.amp_device_id cfg.amp_volume_up_cmd))
            (volume_step_loop cfg env diff n u).events = n :=
        fun u => by simpa [sendCount] using (ih u).2
      simp only [volume_step_loop, if_pos hd, volume_up, hup, if_true, okR]
      refine ⟨(ih _).1, ?_⟩
      simp only [sendCount, List.countP_append, List.countP_cons, List.countP_nil]
      simp [ihc, notifyEv]
      omega

theorem gaps_go_loop (cfg : Config) (env : Env) (diff : ℚ) (d : ℚ) (hd : diff > 0)
    (hup : env.sendOk cfg.amp_device_id cfg.amp_volume_up_cmd = true)
    (hdel : d ≤ VOLUME_STEP_DELAY) :
    ∀ (n : Nat) (s : Coord) (acc : Option ℚ) (tail : List Ev),
      (∀ a, gaps_go d a tail = true) →
      (acc = none ∨ ∃ a0, acc = some a0 ∧ d ≤ a0) →
      gaps_go d acc ((volume_step_loop cfg env diff n s).events ++ tail) = true := by
  intro n
  induction n with
  | zero =>
      intro s acc tail htail _
      simpa [volume_step_loop] using htail acc
  | succ n ih =>
      intro s acc tail htail hacc
      have hacc2 : ∀ u : Coord,
          gaps_go d (some (0 + VOLUME_STEP_DELAY))
            ((volume_step_loop cfg env diff n u).events ++ tail) = true :=
        fun u => ih u _ tail htail
          (Or.inr ⟨0 + VOLUME_STEP_DELAY, rfl, by simpa using hdel⟩)
      simp only [volume_step_loop, if_pos hd, volume_up, hup, if_true, okR]
      simp only [List.cons_append, List.nil_append, List.append_assoc, notifyEv, gaps_go,
        Option.map_some]
      rcases hacc with h | ⟨a0, ha0, hd0⟩
      · subst h
        simpa using hacc2 _
      · subst ha0
        simp only [decide_eq_true hd0, Bool.true_and]
        simpa using hacc2 _

theorem volume_set_level_volume_of_ok (cfg : Config) (env : Env) (t : ℚ) (s : Coord)
    (hok : (volume_set_level cfg env t s).ok = true) :
    (volume_set_level cfg env t s).state.volume =
      max VOLUME_MIN (min VOLUME_MAX (round4 t)) := by
  revert hok
  simp only [volume_set_level]
  by_cases hl : (volume_step_loop cfg env
      (max VOLUME_MIN (min VOLUME_MAX (round4 t)) - s.volume)
      ((intTrunc (abs (max VOLUME_MIN (min VOLUME_MAX (round4 t)) - s.volume) /
        (1 / (cfg.volume_max_steps : ℚ)))).toNat) s).ok = true
  · rw [if_pos hl]
    split_ifs with h2
    · intro _
      exact h2
    · intro _
      rfl
  · rw [if_neg hl]
    intro hok
    exact absurd hok hl

/-- C7: with `max_steps = 50` (step `0.02`) and starting volume `0.30`,
`setVolumeLevel(0.50)` succeeds, issues exactly `10` volume-up
dispatches, consecutive dispatches are separated by at least `150` ms of
sleep, and the final tracked volume is exactly `0.50`. -/
theorem C7_ten_step_ramp (cfg : Config) (env : Env) (s : Coord)
    (hms : cfg.volume_max_steps = 50) (hv : s.volume = 3 / 10)
    (hup : env.sendOk cfg.amp_device_id cfg.amp_volume_up_cmd = true) :
    (volume_set_level cfg env (1 / 2) s).ok = true ∧
    sendCount cfg.amp_device_id cfg.amp_volume_up_cmd
      (volume_set_level cfg env (1 / 2) s).events = 10 ∧
    gaps_ok (15 / 100) (volume_set_level cfg env (1 / 2) s).events = true ∧
    (volume_set_level cfg env (1 / 2) s).state.volume = 1 / 2 := by
  have hr12 : round4 ((1 : ℚ) / 2) = 1 / 2 := by
    have h50 : ((1 : ℚ) / 2) = ((5000 : Int) : ℚ) / 10000 := by norm_num
    rw [h50, round4_int_div]
  have htarget : max VOLUME_MIN (min VOLUME_MAX (round4 ((1 : ℚ) / 2))) = 1 / 2 := by
    rw [hr12]
    norm_num [VOLUME_MIN, VOLUME_MAX]
  have hdiff : max VOLUME_MIN (min VOLUME_MAX (round4 ((1 : ℚ) / 2))) - s.volume = 1 / 5 := by
    rw [htarget, hv]
    norm_num
  have hdpos : max VOLUME_MIN (min VOLUME_MAX (round4 ((1 : ℚ) / 2))) - s.volume > 0 := by
    rw [hdiff]
    norm_num
  have hfloor : intTrunc (10 : ℚ) = 10 := by
    unfold intTrunc
    rw [if_pos (by norm_num), ratFloor_eq]
    norm_num
  have hsteps : (intTrunc (abs (max VOLUME_MIN (min VOLUME_MAX (round4 ((1 : ℚ) / 2))) - s.volume) /
      (1 / (cfg.volume_max_steps : ℚ)))).toNat = 10 := by
    rw [hdiff, hms]
    have habs : abs ((1 : ℚ) / 5) / (1 / ((50 : Nat) : ℚ)) = 10 := by
      rw [abs_of_pos (by norm_num : (0 : ℚ) < 1 / 5)]
      norm_num
    rw [habs, hfloor]
    rfl
  obtain ⟨hok10, hcount10⟩ := volume_step_loop_up cfg env
    (max VOLUME_MIN (min VOLUME_MAX (round4 ((1 : ℚ) / 2))) - s.volume) hdpos hup
    ((intTrunc (abs (max VOLUME_MIN (min VOLUME_MAX (round4 ((1 : ℚ) / 2))) - s.volume) /
      (1 / (cfg.volume_max_steps : ℚ)))).toNat) s
  have hok : (volume_set_level cfg env (1 / 2) s).ok = true := by
    simp only [volume_set_level]
    rw [if_pos hok10]
    split_ifs
    · exact hok10
    · rfl
  refine ⟨hok, ?_, ?_, ?_⟩
  · -- exactly 10 up-dispatches
    simp only [volume_set_level]
    rw [if_pos hok10]
    split_ifs with h2
    · rw [hcount10, hsteps]
    · have hc := hcount10
      simp only [sendCount] at hc
      simp only [sendCount]
      rw [List.countP_append, hc, hsteps]
      simp [notifyEv]
  · -- at least 150 ms between consecutive dispatches
    simp only [gaps_ok, volume_set_level]
    rw [if_pos hok10]
    split_ifs with h2
    · have hg := gaps_go_loop cfg env _ (15 / 100) hdpos hup le_rfl
        ((intTrunc (abs (max VOLUME_MIN (min VOLUME_MAX (round4 ((1 : ℚ) / 2))) - s.volume) /
          (1 / (cfg.volume_max_steps : ℚ)))).toNat) s none []
        (fun a => rfl) (Or.inl rfl)
      simpa using hg
    · exact gaps_go_loop cfg env _ (15 / 100) hdpos hup le_rfl
        ((intTrunc (abs (max VOLUME_MIN (min VOLUME_MAX (round4 ((1 : ℚ) / 2))) - s.volume) /
          (1 / (cfg.volume_max_steps : ℚ)))).toNat) s none _
        (fun a => rfl) (Or.inl rfl)
  · -- exact final volume
    rw [volume_set_level_volume_of_ok cfg env (1 / 2) s hok, htarget]

theorem C7_ten_step_ramp_witness :
    (volume_set_level cfg0 envT (1 / 2) initCoord).ok = true ∧
    sendCount cfg0.amp_device_id cfg0.amp_volume_up_cmd
      (volume_set_level cfg0 envT (1 / 2) initCoord).events = 10 ∧
    gaps_ok (15 / 100) (volume_set_level cfg0 envT (1 / 2) initCoord).events = true ∧
    (volume_set_level cfg0 envT (1 / 2) initCoord).state.volume = 1 / 2 :=
  C7_ten_step_ramp cfg0 envT initCoord rfl rfl rfl


/-! ### C1: scene activation and the active-scene label -/

theorem Res.andThen_state (r : Res) (f : Coord → Res) (h : r.ok = true) :
    Res.andThen r f = ⟨(f r.state).ok, (f r.state).state, r.events ++ (f r.state).events⟩ := by
  unfold Res.andThen
  rw [if_pos h]

theorem ScenePres_okR_nil (s : Coord) : ScenePres s (okR s []) :=
  ⟨rfl, rfl, rfl, by intro st h; simp [okR] at h⟩

theorem ScenePres_comp (s : Coord) (r : Res) (f : Coord → Res)
    (h1 : ScenePres s r)
    (h2 : ∀ u : Coord, u.active_scene = s.active_scene →
      u.in_scene_activation = s.in_scene_activation → ScenePres u (f u)) :
    ScenePres s (Res.andThen r f) := by
  obtain ⟨hok, hsc, hg, hnot⟩ := h1
  obtain ⟨fok, fsc, fg, fnot⟩ := h2 r.state hsc hg
  rw [Res.andThen_state r f hok]
  refine ⟨fok, fsc.trans hsc, fg.trans hg, ?_⟩
  intro st hmem
  rcases List.mem_append.mp hmem with hm | hm
  · exact hnot st hm
  · exact (fnot st hm).trans hsc

theorem OkGuard_comp (s : Coord) (r : Res) (f : Coord → Res)
    (h1 : OkGuard s r)
    (h2 : ∀ u : Coord, u.in_scene_activation = s.in_scene_activation →
      OkGuard u (f u)) :
    OkGuard s (Res.andThen r f) := by
  obtain ⟨hok, hg⟩ := h1
  obtain ⟨fok, fg⟩ := h2 r.state hg
  rw [Res.andThen_state r f hok]
  exact ⟨fok, fg.trans hg⟩

theorem ScenePres.toOkGuard {s : Coord} {r : Res} (h : ScenePres s r) :
    OkGuard s r :=
  ⟨h.1, h.2.2.1⟩

theorem ScenePres_amp_power_on (cfg : Config) (env : Env) (s : Coord)
    (henv : ∀ d c, env.sendOk d c = true) :
    ScenePres s (amp_power_on cfg env s) := by
  unfold amp_power_on
  split_ifs with h1 h2
  · exact ScenePres_okR_nil s
  · refine ⟨rfl, rfl, rfl, ?_⟩
    intro st hm
    simp [okR, notifyEv] at hm
    subst hm
    rfl
  · exact absurd (henv _ _) h2

theorem OkGuard_amp_power_off (cfg : Config) (env : Env) (s : Coord)
    (henv : ∀ d c, env.sendOk d c = true) :
    OkGuard s (amp_power_off cfg env s) := by
  unfold amp_power_off
  split_ifs with h1 h2
  · exact ⟨rfl, rfl⟩
  · exact ⟨rfl, rfl⟩
  · exact absurd (henv _ _) h2

theorem ScenePres_select_source (cfg : Config) (env : Env) (src : String) (s : Coord)
    (henv : ∀ d c, env.sendOk d c = true) (hg : s.in_scene_activation = true) :
    ScenePres s (select_source cfg env src s) := by
  cases hl : cfg.sources.lookup src with
  | none =>
      simp only [select_source, hl]
      exact ScenePres_okR_nil s
  | some cmd =>
      simp only [select_source, hl]
      rw [if_pos (henv _ _), if_pos hg]
      refine ⟨rfl, rfl, rfl, ?_⟩
      intro st hm
      simp [okR, notifyEv] at hm
      subst hm
      rfl

theorem ScenePres_volume_up (cfg : Config) (env : Env) (s : Coord)
    (henv : ∀ d c, env.sendOk d c = true) (hg : s.in_scene_activation = true) :
    ScenePres s (volume_up cfg env s) := by
  simp only [volume_up]
  rw [if_pos (henv _ _), if_pos hg]
  refine ⟨rfl, rfl, rfl, ?_⟩
  intro st hm
  simp [okR, notifyEv] at hm
  subst hm
  rfl

theorem ScenePres_volume_down (cfg : Config) (env : Env) (s : Coord)
    (henv : ∀ d c, env.sendOk d c = true) (hg : s.in_scene_activation = true) :
    ScenePres s (volume_down cfg env s) := by
  simp only [volume_down]
  rw [if_pos (henv _ _), if_pos hg]
  refine ⟨rfl, rfl, rfl, ?_⟩
  intro st hm
  simp [okR, notifyEv] at hm
  subst hm
  rfl

theorem ScenePres_volume_step_loop (cfg : Config) (env : Env) (diff : ℚ)
    (henv : ∀ d c, env.sendOk d c = true) :
    ∀ (n : Nat) (s : Coord), s.in_scene_activation = true →
      ScenePres s (volume_step_loop cfg env diff n s) := by
  intro n
  induction n with
  | zero => intro s hg; exact ScenePres_okR_nil s
  | succ n ih =>
      intro s hg
      simp only [volume_step_loop]
      by_cases hd : diff > 0
      · simp only [if_pos hd]
        obtain ⟨rok, rsc, rg, rnot⟩ := ScenePres_volume_up cfg env s henv hg
        rw [if_pos rok]
        obtain ⟨qok, qsc, qg, qnot⟩ := ih (volume_up cfg env s).state (by rw [rg, hg])
        refine ⟨qok, qsc.trans rsc, qg.trans rg, ?_⟩
        intro st hm
        simp only [List.append_assoc, List.mem_append] at hm
        rcases hm with hm | hm | hm
        · exact rnot st hm
        · simp at hm
        · exact (qnot st hm).trans rsc
      · simp only [if_neg hd]
        obtain ⟨rok, rsc, rg, rnot⟩ := ScenePres_volume_down cfg env s henv hg
        rw [if_pos rok]
        obtain ⟨qok, qsc, qg, qnot⟩ := ih (volume_down cfg env s).state (by rw [rg, hg])
        refine ⟨qok, qsc.trans rsc, qg.trans rg, ?_⟩
        intro st hm
        simp only [List.append_assoc, List.mem_append] at hm
        rcases hm with hm | hm | hm
        · exact rnot st hm
        · simp at hm
        · exact (qnot st hm).trans rsc

theorem ScenePres_volume_set_level (cfg : Config) (env : Env) (t : ℚ) (s : Coord)
    (henv : ∀ d c, env.sendOk d c = true) (hg : s.in_scene_activation = true) :
    ScenePres s (volume_set_level cfg env t s) := by
  obtain ⟨rok, rsc, rg, rnot⟩ := ScenePres_volume_step_loop cfg env
    (max VOLUME_MIN (min VOLUME_MAX (round4 t)) - s.volume) henv
    ((intTrunc (abs (max VOLUME_MIN (min VOLUME_MAX (round4 t)) - s.volume) /
      (1 / (cfg.volume_max_steps : ℚ)))).toNat) s hg
  simp only [volume_set_level]
  rw [if_pos rok]
  split_ifs with h2
  · exact ⟨rok, rsc, rg, rnot⟩
  · refine ⟨rfl, rsc, rg, ?_⟩
    intro st hm
    rcases List.mem_append.mp hm with hm | hm
    · exact rnot st hm
    · simp only [notifyEv, List.mem_singleton, Ev.notify.injEq] at hm
      subst hm
      exact rsc

theorem cancel_screen_timer_guard (s : Coord) :
    (cancel_screen_timer s).in_scene_activation = s.in_scene_activation := by
  unfold cancel_screen_timer
  cases s.screen_timer <;> rfl

theorem cancel_screen_timer_active (s : Coord) :
    (cancel_screen_timer s).active_scene = s.active_scene :=
  congrArg StateRec.active_scene (stateRec_cancel_screen_timer s)

theorem ScenePres_screen_down (cfg : Config) (env : Env) (s : Coord)
    (henv : ∀ d c, env.sendOk d c = true) :
    ScenePres s (screen_down cfg env s) := by
  by_cases h1 : s.screen_position = ScreenPos.down
  · simp only [screen_down, if_pos h1]
    exact ScenePres_okR_nil s
  · simp only [screen_down, if_neg h1]
    rw [if_pos (henv _ _)]
    refine ⟨rfl, ?_, ?_, ?_⟩
    · simpa [schedule_later, okR] using cancel_screen_timer_active s
    · simpa [schedule_later, okR] using cancel_screen_timer_guard s
    · intro st hm
      simp [okR, notifyEv] at hm
      subst hm
      simpa [stateRec] using cancel_screen_timer_active s

theorem ScenePres_screen_up (cfg : Config) (env : Env) (s : Coord)
    (henv : ∀ d c, env.sendOk d c = true) :
    ScenePres s (screen_up cfg env s) := by
  by_cases h1 : s.screen_position = ScreenPos.up
  · simp only [screen_up, if_pos h1]
    exact ScenePres_okR_nil s
  · simp only [screen_up, if_neg h1]
    rw [if_pos (henv _ _)]
    refine ⟨rfl, ?_, ?_, ?_⟩
    · simpa [schedule_later, okR] using cancel_screen_timer_active s
    · simpa [schedule_later, okR] using cancel_screen_timer_guard s
    · intro st hm
      simp [okR, notifyEv] at hm
      subst hm
      simpa [stateRec] using cancel_screen_timer_active s

theorem ScenePres_run_lights (env : Env)
    (hsvc : ∀ a b c, env.svcOk a b c = true) :
    ∀ (l : List LightCfg) (s : Coord), ScenePres s (run_lights env l s) := by
  intro l
  induction l with
  | nil => intro s; exact ScenePres_okR_nil s
  | cons lc rest ih =>
      intro s
      simp only [run_lights]
      cases hE : lc.entity_id with
      | none => exact ih s
      | some eid =>
          by_cases hempty : eid = ""
          · simp only [if_pos hempty]
            exact ih s
          · simp only [if_neg hempty]
            by_cases hdom : ((eid.splitOn ".").headD "") = "light" ∨
                ((eid.splitOn ".").headD "") = "switch"
            · simp only [if_pos hdom]
              by_cases hon : lc.state.getD "off" = "on"
              · simp only [if_pos hon]
                rw [if_pos (hsvc _ _ _)]
                obtain ⟨qok, qsc, qg, qnot⟩ := ih s
                rw [Res.andThen_state _ _ rfl]
                refine ⟨qok, qsc, qg, ?_⟩
                intro st hm
                rcases List.mem_append.mp hm with hm | hm
                · simp [okR] at hm
                · exact qnot st hm
              · simp only [if_neg hon]
                rw [if_pos (hsvc _ _ _)]
                obtain ⟨qok, qsc, qg, qnot⟩ := ih s
                rw [Res.andThen_state _ _ rfl]
                refine ⟨qok, qsc, qg, ?_⟩
                intro st hm
                rcases List.mem_append.mp hm with hm | hm
                · simp [okR] at hm
                · exact qnot st hm
            · simp only [if_neg hdom]
              exact ih s


theorem mem_notifyActives {a : Option String} {evs : List Ev}
    (h : a ∈ notifyActives evs) :
    ∃ st : StateRec, Ev.notify st ∈ evs ∧ st.active_scene = a := by
  unfold notifyActives at h
  rcases List.mem_filterMap.mp h with ⟨e, he, hfe⟩
  cases e with
  | send d c => simp at hfe
  | svc x y z b => simp at hfe
  | sleep t => simp at hfe
  | notify st => exact ⟨st, he, by simpa using hfe⟩

theorem scene_finalize (s : Coord) (r5 : Res) (name : String)
    (h : ScenePres s r5) (f : Coord → Res)
    (hf : ∀ u : Coord, f u = okR { u with active_scene := some name }
      [notifyEv { u with active_scene := some name }]) :
    (Res.andThen r5 f).ok = true ∧
    (Res.andThen r5 f).state.active_scene = some name ∧
    (Res.andThen r5 f).state.in_scene_activation = s.in_scene_activation ∧
    notifyActives (Res.andThen r5 f).events =
      (notifyActives (Res.andThen r5 f).events).dropLast ++ [some name] ∧
    ∀ a ∈ (notifyActives (Res.andThen r5 f).events).dropLast, a = s.active_scene := by
  obtain ⟨rok, rsc, rg, rnot⟩ := h
  rw [Res.andThen_state r5 f rok, hf r5.state]
  simp only [okR]
  have hNA : notifyActives
      (r5.events ++ [notifyEv { r5.state with active_scene := some name }]) =
      notifyActives r5.events ++ [some name] := by
    simp [notifyActives, notifyEv, List.filterMap_append, stateRec]
  refine ⟨trivial, trivial, rg, ?_, ?_⟩
  · rw [hNA, List.dropLast_concat]
  · intro a ha
    rw [hNA, List.dropLast_concat] at ha
    obtain ⟨st, hmem, hst⟩ := mem_notifyActives ha
    rw [← hst]
    exact rnot st hmem

theorem scene_finalize_ok (s : Coord) (r5 : Res) (name : String)
    (h : OkGuard s r5) (f : Coord → Res)
    (hf : ∀ u : Coord, f u = okR { u with active_scene := some name }
      [notifyEv { u with active_scene := some name }]) :
    (Res.andThen r5 f).ok = true ∧
    (Res.andThen r5 f).state.active_scene = some name ∧
    (Res.andThen r5 f).state.in_scene_activation = s.in_scene_activation := by
  obtain ⟨rok, rg⟩ := h
  rw [Res.andThen_state r5 f rok, hf r5.state]
  simp only [okR]
  exact ⟨trivial, trivial, rg⟩

theorem execute_scene_active (cfg : Config) (env : Env) (scene : Scene)
    (name : String) (s : Coord)
    (henv : ∀ d c, env.sendOk d c = true)
    (hsvc : ∀ x y z, env.svcOk x y z = true)
    (hg : s.in_scene_activation = true) :
    (execute_scene cfg env scene name s).ok = true ∧
    (execute_scene cfg env scene name s).state.active_scene = some name ∧
    (execute_scene cfg env scene name s).state.in_scene_activation = true ∧
    (scene.amp_power ≠ some false →
      notifyActives (execute_scene cfg env scene name s).events =
        (notifyActives (execute_scene cfg env scene name s).events).dropLast
          ++ [some name] ∧
      ∀ a ∈ (notifyActives (execute_scene cfg env scene name s).events).dropLast,
        a = s.active_scene) := by
  by_cases hamp : scene.amp_power = some false
  · -- the scene powers the amp off; only completion facts are claimed
    simp only [execute_scene, hamp]
    have g1 : OkGuard s (amp_power_off cfg env s) := OkGuard_amp_power_off cfg env s henv
    have g2 := OkGuard_comp s _ (fun u =>
        match scene.source with
        | some src => if src = "" then okR u [] else select_source cfg env src u
        | none => okR u []) g1 (fun u hug => by
      cases scene.source with
      | none => exact ⟨rfl, rfl⟩
      | some src =>
          by_cases hsrc : src = ""
          · simp only [if_pos hsrc]
            exact ⟨rfl, rfl⟩
          · simp only [if_neg hsrc]
            exact (ScenePres_select_source cfg env src u henv (hug.trans hg)).toOkGuard)
    have g3 := OkGuard_comp s _ (fun u =>
        match scene.volume with
        | some v => volume_set_level cfg env v u
        | none => okR u []) g2 (fun u hug => by
      cases scene.volume with
      | none => exact ⟨rfl, rfl⟩
      | some v =>
          exact (ScenePres_volume_set_level cfg env v u henv (hug.trans hg)).toOkGuard)
    have g4 := OkGuard_comp s _ (fun u =>
        if scene.screen = some "down" then screen_down cfg env u
        else if scene.screen = some "up" then screen_up cfg env u
        else okR u []) g3 (fun u _ => by
      by_cases hd : scene.screen = some "down"
      · simp only [if_pos hd]
        exact (ScenePres_screen_down cfg env u henv).toOkGuard
      · by_cases hu2 : scene.screen = some "up"
        · simp only [if_neg hd, if_pos hu2]
          exact (ScenePres_screen_up cfg env u henv).toOkGuard
        · simp only [if_neg hd, if_neg hu2]
          exact ⟨rfl, rfl⟩)
    have g5 := OkGuard_comp s _ (run_lights env scene.lights) g4
      (fun u _ => (ScenePres_run_lights env hsvc scene.lights u).toOkGuard)
    obtain ⟨f1, f2, f3⟩ := scene_finalize_ok s _ name g5
      (fun u => okR { u with active_scene := some name }
        [notifyEv { u with active_scene := some name }]) (fun u => rfl)
    exact ⟨f1, f2, f3.trans hg, fun hn => absurd rfl hn⟩
  · -- no amp power-off step: nothing clears the label mid-execution
    have h1 : ScenePres s (match scene.amp_power with
        | none => okR s []
        | some true =>
            let r := amp_power_on cfg env s
            if r.ok then ⟨true, r.state, r.events ++ [Ev.sleep AMP_POWER_ON_DELAY]⟩ else r
        | some false => amp_power_off cfg env s) := by
      cases hap : scene.amp_power with
      | none => exact ScenePres_okR_nil s
      | some b =>
          cases b with
          | false => exact absurd hap hamp
          | true =>
              obtain ⟨rok, rsc, rg, rnot⟩ := ScenePres_amp_power_on cfg env s henv
              show ScenePres s (if (amp_power_on cfg env s).ok = true then
                ⟨true, (amp_power_on cfg env s).state,
                  (amp_power_on cfg env s).events ++ [Ev.sleep AMP_POWER_ON_DELAY]⟩
                else amp_power_on cfg env s)
              rw [if_pos rok]
              refine ⟨rfl, rsc, rg, ?_⟩
              intro st hm
              rcases List.mem_append.mp hm with hm | hm
              · exact rnot st hm
              · simp at hm
    have h2 := ScenePres_comp s _ (fun u =>
        match scene.source with
        | some src => if src = "" then okR u [] else select_source cfg env src u
        | none => okR u []) h1 (fun u _ hug => by
      cases scene.source with
      | none => exact ScenePres_okR_nil u
      | some src =>
          by_cases hsrc : src = ""
          · simp only [if_pos hsrc]
            exact ScenePres_okR_nil u
          · simp only [if_neg hsrc]
            exact ScenePres_select_source cfg env src u henv (hug.trans hg))
    have h3 := ScenePres_comp s _ (fun u =>
        match scene.volume with
        | some v => volume_set_level cfg env v u
        | none => okR u []) h2 (fun u _ hug => by
      cases scene.volume with
      | none => exact ScenePres_okR_nil u
      | some v => exact ScenePres_volume_set_level cfg env v u henv (hug.trans hg))
    have h4 := ScenePres_comp s _ (fun u =>
        if scene.screen = some "down" then screen_down cfg env u
        else if scene.screen = some "up" then screen_up cfg env u
        else okR u []) h3 (fun u _ _ => by
      by_cases hd : scene.screen = some "down"
      · simp only [if_pos hd]
        exact ScenePres_screen_down cfg env u henv
      · by_cases hu2 : scene.screen = some "up"
        · simp only [if_neg hd, if_pos hu2]
          exact ScenePres_screen_up cfg env u henv
        · simp only [if_neg hd, if_neg hu2]
          exact ScenePres_okR_nil u)
    have h5 := ScenePres_comp s _ (run_lights env scene.lights) h4
      (fun u _ _ => ScenePres_run_lights env hsvc scene.lights u)
    obtain ⟨f1, f2, f3, f4g, f5g⟩ := scene_finalize s _ name h5
      (fun u => okR { u with active_scene := some name }
        [notifyEv { u with active_scene := some name }]) (fun u => rfl)
    exact ⟨f1, f2, f3.trans hg, fun _ => ⟨f4g, f5g⟩⟩


/-- C1 (amended): for every configured scene, the sub-steps that run
under the re-entrancy guard (volume steps, source selection) and an amp
power-on step never clear `active_scene` mid-execution — with no amp
power-off step, every listener notification before the final one still
shows the original `active_scene`; after the scene's steps all complete,
`active_scene` equals the scene's name (this holds for every scene,
including ones with an amp power-off step). -/
theorem C1_scene_preserves_active_scene (cfg : Config) (env : Env)
    (name : String) (scene : Scene) (s : Coord)
    (hfind : find_scene cfg name = some scene)
    (henv : ∀ d c, env.sendOk d c = true)
    (hsvc : ∀ x y z, env.svcOk x y z = true) :
    (activate_scene cfg env name s).ok = true ∧
    (activate_scene cfg env name s).state.active_scene = some name ∧
    (scene.amp_power ≠ some false →
      notifyActives (activate_scene cfg env name s).events =
        (notifyActives (activate_scene cfg env name s).events).dropLast
          ++ [some name] ∧
      ∀ a ∈ (notifyActives (activate_scene cfg env name s).events).dropLast,
        a = s.active_scene) := by
  obtain ⟨e1, e2, _, e4⟩ := execute_scene_active cfg env scene name
    { s with in_scene_activation := true } henv hsvc rfl
  simp only [activate_scene, hfind]
  exact ⟨e1, e2, fun hn => e4 hn⟩

/-- C1 counterexample: activating the scene `"Off"` (whose only step is
amp power-off) from a state with the amp on and `active_scene` set
broadcasts a mid-execution notification in which `active_scene` is
already absent — the amp power-off sub-step clears it without consulting
the re-entrancy guard — before the final notification restores it to the
scene's name. -/
theorem C1_amp_off_clears_mid_scene_counterexample :
    coordOn.active_scene = some "Movie Night" ∧
    notifyActives (activate_scene cfg0 envT "Off" coordOn).events =
      [none, some "Off"] ∧
    (notifyActives (activate_scene cfg0 envT "Off" coordOn).events).dropLast =
      [none] ∧
    (activate_scene cfg0 envT "Off" coordOn).state.active_scene = some "Off" := by
  refine ⟨rfl, ?_, ?_, ?_⟩ <;>
    simp [activate_scene, find_scene, cfg0, sceneOff, sceneMovie, execute_scene,
      amp_power_off, coordOn, initCoord, okR, errR, Res.andThen, run_lights, envT,
      notifyEv, stateRec, notifyActives]

theorem C1_scene_preserves_active_scene_witness :
    (activate_scene cfg0 envT "Movie Night" coordOn).ok = true ∧
    (activate_scene cfg0 envT "Movie Night" coordOn).state.active_scene =
      some "Movie Night" ∧
    ∀ a ∈ (notifyActives (activate_scene cfg0 envT "Movie Night" coordOn).events).dropLast,
      a = coordOn.active_scene := by
  obtain ⟨h1, h2, h3⟩ := C1_scene_preserves_active_scene cfg0 envT "Movie Night"
    sceneMovie coordOn rfl (fun d c => rfl) (fun x y z => rfl)
  exact ⟨h1, h2, (h3 (by simp [sceneMovie])).2⟩

end HomeTheater
